import Mathlib

/-!
Verification development for the xpra AI-control plane core:
the wire protocol (protocol.py), the per-window composited framebuffer
and its registry (framebuffer.py), and the mode-gated input arbitration
of the server plugin (src/plugin.py).

The Python source is shallowly embedded: pure functions become Lean
functions, in-place mutation becomes explicit state passing, Python
floats (timestamps, scales) become rationals, and bytes become lists of
naturals.  Behaviour of external libraries (msgpack, PIL) that the
source calls is modelled at the level of its documented contract; every
such modelling point is marked in the corresponding doc comment.
-/

/-! ## Wire protocol (protocol.py)

All messages are serialised with msgpack (an external library).  msgpack
transports structured values (nil, bool, int, float, str, bin, array,
map) faithfully: `unpackb (packb v) = v` for every representable value
when packed with `use_bin_type=True` and unpacked with `raw=False`.  We
therefore model the transport at the level of those structured values:
`serialise` produces the structured value that `asdict` + `packb` would
encode, and `deserialise` consumes it the way `unpackb` + `cls(**d)`
would.  Map keys produced by `asdict` are always field-name strings, so
maps are modelled with string keys. -/

/-- A msgpack-representable structured value. -/
inductive MsgValue where
  | nil
  | bool (b : Bool)
  | int (n : Int)
  | float (q : ℚ)
  | str (s : String)
  | bin (b : List Nat)
  | arr (items : List MsgValue)
  | map (entries : List (String × MsgValue))

/-- Dictionary lookup on the entry list of a `MsgValue.map`. -/
def mvLookup (entries : List (String × MsgValue)) (k : String) : Option MsgValue :=
  match entries with
  | [] => none
  | (k', v) :: rest => if k' = k then some v else mvLookup rest k

/-- Extract an int field, as reading a typed field after `cls(**d)`. -/
def MsgValue.int? : MsgValue → Option Int
  | .int n => some n
  | _ => none

/-- Extract a float field. -/
def MsgValue.float? : MsgValue → Option ℚ
  | .float q => some q
  | _ => none

/-- Extract a string field. -/
def MsgValue.str? : MsgValue → Option String
  | .str s => some s
  | _ => none

/-- Extract a bytes field. -/
def MsgValue.bin? : MsgValue → Option (List Nat)
  | .bin b => some b
  | _ => none

/-- Extract a bool field. -/
def MsgValue.bool? : MsgValue → Option Bool
  | .bool b => some b
  | _ => none

/-- Extract a dict field. -/
def MsgValue.map? : MsgValue → Option (List (String × MsgValue))
  | .map entries => some entries
  | _ => none

/-- Read an int field of a decoded dict. -/
def mvInt (d : List (String × MsgValue)) (k : String) : Option Int :=
  (mvLookup d k).bind MsgValue.int?

/-- Read a float field of a decoded dict. -/
def mvFloat (d : List (String × MsgValue)) (k : String) : Option ℚ :=
  (mvLookup d k).bind MsgValue.float?

/-- Read a string field of a decoded dict. -/
def mvStr (d : List (String × MsgValue)) (k : String) : Option String :=
  (mvLookup d k).bind MsgValue.str?

/-- Read a bytes field of a decoded dict. -/
def mvBin (d : List (String × MsgValue)) (k : String) : Option (List Nat) :=
  (mvLookup d k).bind MsgValue.bin?

/-- Read a bool field of a decoded dict. -/
def mvBool (d : List (String × MsgValue)) (k : String) : Option Bool :=
  (mvLookup d k).bind MsgValue.bool?

/-- Read a nested-dict field of a decoded dict. -/
def mvMap (d : List (String × MsgValue)) (k : String) : Option (List (String × MsgValue)) :=
  (mvLookup d k).bind MsgValue.map?

/-- Source `FrameMessage`: a captured frame region delivered to the agent
(protocol.py).  `data` holds the compressed image bytes; `timestamp` is
a float modelled as a rational. -/
structure FrameMessage where
  wid : Int
  x : Int
  y : Int
  width : Int
  height : Int
  format : String
  data : List Nat
  timestamp : ℚ
  window_title : String
  window_class : String
  is_focused : Bool
  sequence : Int

/-- The field names of `FrameMessage`, in dataclass order (the keys of
`asdict`). -/
def frameFields : List String :=
  ["wid", "x", "y", "width", "height", "format", "data", "timestamp",
   "window_title", "window_class", "is_focused", "sequence"]

/-- Source `FrameMessage.serialise`: `asdict(self)` then `msgpack.packb`;
modelled as the structured value the bytes encode. -/
def FrameMessage.serialise (m : FrameMessage) : MsgValue :=
  .map [("wid", .int m.wid), ("x", .int m.x), ("y", .int m.y),
        ("width", .int m.width), ("height", .int m.height),
        ("format", .str m.format), ("data", .bin m.data),
        ("timestamp", .float m.timestamp),
        ("window_title", .str m.window_title),
        ("window_class", .str m.window_class),
        ("is_focused", .bool m.is_focused),
        ("sequence", .int m.sequence)]

/-- Source `FrameMessage.deserialise`: `msgpack.unpackb` then `cls(**d)`.
`cls(**d)` rejects any key that is not a field name, so decoding checks
that every key is known; each field is then read from the dict.  (The
dataclass would allow a defaulted field to be absent; encodings always
carry every field, so that path is not exercised by round-trips.) -/
def FrameMessage.deserialise (v : MsgValue) : Option FrameMessage :=
  match v with
  | .map d =>
    if d.all (fun e => frameFields.contains e.1) then
      match mvInt d "wid", mvInt d "x", mvInt d "y", mvInt d "width",
            mvInt d "height", mvStr d "format", mvBin d "data",
            mvFloat d "timestamp", mvStr d "window_title",
            mvStr d "window_class", mvBool d "is_focused",
            mvInt d "sequence" with
      | some wid, some x, some y, some width, some height, some format,
        some data, some timestamp, some window_title, some window_class,
        some is_focused, some sequence =>
          some { wid, x, y, width, height, format, data, timestamp,
                 window_title, window_class, is_focused, sequence }
      | _, _, _, _, _, _, _, _, _, _, _, _ => none
    else none
  | _ => none

/-- Source `EventMessage`: a window or system event (protocol.py). -/
structure EventMessage where
  event_type : String
  wid : Int
  timestamp : ℚ
  data : List (String × MsgValue)

/-- The field names of `EventMessage`. -/
def eventFields : List String := ["event_type", "wid", "timestamp", "data"]

/-- Source `EventMessage.serialise`. -/
def EventMessage.serialise (m : EventMessage) : MsgValue :=
  .map [("event_type", .str m.event_type), ("wid", .int m.wid),
        ("timestamp", .float m.timestamp), ("data", .map m.data)]

/-- Source `EventMessage.deserialise`. -/
def EventMessage.deserialise (v : MsgValue) : Option EventMessage :=
  match v with
  | .map d =>
    if d.all (fun e => eventFields.contains e.1) then
      match mvStr d "event_type", mvInt d "wid", mvFloat d "timestamp",
            mvMap d "data" with
      | some event_type, some wid, some timestamp, some data =>
          some { event_type, wid, timestamp, data }
      | _, _, _, _ => none
    else none
  | _ => none

/-- Source `ControlRequest`: a request from agent to plugin (protocol.py). -/
structure ControlRequest where
  request_type : String
  payload : List (String × MsgValue)
  request_id : String

/-- The field names of `ControlRequest`. -/
def requestFields : List String := ["request_type", "payload", "request_id"]

/-- Source `ControlRequest.serialise`. -/
def ControlRequest.serialise (m : ControlRequest) : MsgValue :=
  .map [("request_type", .str m.request_type), ("payload", .map m.payload),
        ("request_id", .str m.request_id)]

/-- Source `ControlRequest.deserialise`. -/
def ControlRequest.deserialise (v : MsgValue) : Option ControlRequest :=
  match v with
  | .map d =>
    if d.all (fun e => requestFields.contains e.1) then
      match mvStr d "request_type", mvMap d "payload", mvStr d "request_id" with
      | some request_type, some payload, some request_id =>
          some { request_type, payload, request_id }
      | _, _, _ => none
    else none
  | _ => none

/-- Source `ControlResponse`: a response from plugin to agent (protocol.py).
The `data` field is `Any` in the source, so it stays a raw `MsgValue`
(`.nil` models Python `None`). -/
structure ControlResponse where
  success : Bool
  request_id : String
  data : MsgValue
  error : String

/-- The field names of `ControlResponse`. -/
def responseFields : List String := ["success", "request_id", "data", "error"]

/-- Source `ControlResponse.serialise`. -/
def ControlResponse.serialise (m : ControlResponse) : MsgValue :=
  .map [("success", .bool m.success), ("request_id", .str m.request_id),
        ("data", m.data), ("error", .str m.error)]

/-- Source `ControlResponse.deserialise`.  The `data` field is taken as-is,
matching the untyped `Any` field of the dataclass. -/
def ControlResponse.deserialise (v : MsgValue) : Option ControlResponse :=
  match v with
  | .map d =>
    if d.all (fun e => responseFields.contains e.1) then
      match mvBool d "success", mvStr d "request_id", mvLookup d "data",
            mvStr d "error" with
      | some success, some request_id, some data, some error =>
          some { success, request_id, data, error }
      | _, _, _, _ => none
    else none
  | _ => none

/-! ## Image model (PIL usage in framebuffer.py)

framebuffer.py manipulates images through PIL (an external library).
The image itself is modelled as an explicit grid of RGB pixels; each PIL
operation the source uses is modelled below at the level of its
documented contract, with the modelling points noted per definition. -/

/-- An RGB pixel, one byte per channel. -/
structure RGB where
  r : Nat
  g : Nat
  b : Nat
deriving DecidableEq, Repr

/-- An RGB image: dimensions plus a row-major pixel grid. -/
structure Img where
  width : Nat
  height : Nat
  rows : List (List RGB)
deriving DecidableEq, Repr

/-- Source `Image.new("RGB", (w, h), c)`: a w×h image filled with colour `c`. -/
def Img.new (w h : Nat) (c : RGB) : Img :=
  { width := w, height := h, rows := List.replicate h (List.replicate w c) }

/-- Pixel access with black fallback outside the grid. -/
def Img.pixel (img : Img) (i j : Nat) : RGB :=
  (img.rows.getD i []).getD j ⟨0, 0, 0⟩

/-- Source `base.paste(region, (x, y))`: writes `region` into `base` at offset
(x, y), clipped to the bounds of `base` (PIL clips silently). -/
def Img.paste (base region : Img) (x y : Nat) : Img :=
  { width := base.width, height := base.height,
    rows := (List.range base.height).map (fun i =>
      (List.range base.width).map (fun j =>
        if y ≤ i ∧ i < y + region.height ∧ x ≤ j ∧ j < x + region.width then
          region.pixel (i - y) (j - x)
        else base.pixel i j)) }

/-- Build a w×h image from a flat byte list with `channels` bytes per
pixel (alpha, if present, is dropped: the source converts RGBA to RGB).
Callers guarantee `data.length = w * h * channels`. -/
def imgFromBytes (channels w h : Nat) (data : List Nat) : Img :=
  { width := w, height := h,
    rows := (List.range h).map (fun i =>
      (List.range w).map (fun j =>
        let o := (i * w + j) * channels
        ⟨data.getD o 0, data.getD (o + 1) 0, data.getD (o + 2) 0⟩)) }

/-- Flatten an image to its raw RGB bytes (`img.tobytes()`). -/
def Img.tobytes (img : Img) : List Nat :=
  img.rows.flatMap (fun row => row.flatMap (fun p => [p.r, p.g, p.b]))

/-- Source `img.resize((w, h), LANCZOS)`: the output dimensions are exact; the
resampled pixel values are modelled by nearest-neighbour sampling (the
LANCZOS filter weights are a property of the imaging library, not of
this repository, and no claim depends on them). -/
def Img.resizeTo (img : Img) (w h : Nat) : Img :=
  { width := w, height := h,
    rows := (List.range h).map (fun i =>
      (List.range w).map (fun j =>
        img.pixel (i * img.height / h) (j * img.width / w))) }

/-- Modelled from the documented contract of `Image.open(...).convert("RGB")`
for the compressed still-image codings (png, jpeg, webp): the library
either decodes the payload into some image or raises.  The payload is
modelled as a header byte 77, the two dimensions, and exactly w*h*3
colour bytes; any other byte sequence fails to decode, modelling a
raised decode error. -/
def pilOpenRGB (data : List Nat) : Option Img :=
  match data with
  | tag :: w :: h :: rest =>
      if tag = 77 ∧ rest.length = w * h * 3 then some (imgFromBytes 3 w h rest)
      else none
  | _ => none

/-- Modelled JPEG encoding (`img.save(buf, format="JPEG", quality=q)`):
the library produces a non-empty byte stream determined by the image and
the quality; modelled as the JPEG start-of-image marker followed by the
quality, the dimensions and the raw pixels. -/
def jpegEncode (img : Img) (quality : Nat) : List Nat :=
  255 :: 216 :: quality :: img.width :: img.height :: img.tobytes

/-- Modelled PNG encoding (`img.save(buf, format="PNG")`): non-empty,
starting with the PNG signature byte. -/
def pngEncode (img : Img) : List Nat :=
  137 :: 80 :: img.width :: img.height :: img.tobytes

/-! ## WindowFramebuffer (framebuffer.py) -/

/-- Source `WindowFramebuffer`: composited framebuffer for a single X11 window.
Timestamps are Python floats, modelled as rationals.  The per-instance
lock serialises access in the source; in this sequential embedding the
state is threaded explicitly, so the lock has no residue. -/
structure WindowFramebuffer where
  wid : Nat
  width : Nat
  height : Nat
  image : Img
  dirty : Bool
  last_sent : ℚ
  sequence : Nat
deriving DecidableEq, Repr

/-- Source `WindowFramebuffer.__init__`: black buffer, dirty false,
last_sent 0.0, sequence 0. -/
def WindowFramebuffer.new (wid width height : Nat) : WindowFramebuffer :=
  { wid, width, height, image := Img.new width height ⟨0, 0, 0⟩,
    dirty := false, last_sent := 0, sequence := 0 }

/-- The decode step of `update_region`: the rgb24/rgb32/rgbx branch
(`Image.frombytes`, which raises unless the data length matches
w*h*channels; RGBA is converted to RGB by dropping alpha), the
compressed branch (`Image.open(...).convert("RGB")`), and the
unsupported-coding branch.  Both the unsupported-coding early return
and a raised-and-caught decode error leave the caller's state
unchanged, and are both modelled as `none`. -/
def decodeRegion (coding : String) (w h : Nat) (data : List Nat) : Option Img :=
  if coding = "rgb24" ∨ coding = "rgb32" ∨ coding = "rgbx" then
    let channels := if coding = "rgb32" ∨ coding = "rgbx" then 4 else 3
    if data.length = w * h * channels then some (imgFromBytes channels w h data)
    else none
  else if coding = "png" ∨ coding = "jpeg" ∨ coding = "webp" ∨
          coding = "png/L" ∨ coding = "png/P" then
    pilOpenRGB data
  else none

/-- Source `WindowFramebuffer.update_region`: composite a damage region into
the framebuffer.  On a successful decode the region is pasted at (x, y)
and the dirty flag is set; otherwise (unsupported coding, or the decode
raised and the exception was caught) the state is unchanged. -/
def WindowFramebuffer.update_region (fb : WindowFramebuffer) (x y w h : Nat)
    (coding : String) (data : List Nat) : WindowFramebuffer :=
  match decodeRegion coding w h data with
  | some region => { fb with image := fb.image.paste region x y, dirty := true }
  | none => fb

/-- Source `WindowFramebuffer.resize`: new black backing of the new size, old
content pasted at the origin (clipped if shrunk), dirty set. -/
def WindowFramebuffer.resize (fb : WindowFramebuffer) (width height : Nat) :
    WindowFramebuffer :=
  { fb with image := (Img.new width height ⟨0, 0, 0⟩).paste fb.image 0 0,
            width := width, height := height, dirty := true }

/-- Floor of a rational, as `int()` applied to a non-negative float. -/
def qToNat (q : ℚ) : Nat := q.floor.toNat

/-- Source `WindowFramebuffer.snapshot`: returns `none` and an unchanged state
if the buffer is clean; otherwise copies the image, clears dirty,
increments the sequence counter, applies the scale / max-dimension
downscale, and encodes to the requested format (an unrecognised format
falls through to the JPEG branch).  `int(w * ratio)` with
`ratio = max_dim / max(w, h)` is floor of an exact rational product,
i.e. `w * max_dim / max w h` in natural division. -/
def WindowFramebuffer.snapshot (fb : WindowFramebuffer) (fmt : String := "jpeg")
    (quality : Nat := 70) (scale : ℚ := 1) (max_dim : Nat := 1920) :
    Option (List Nat) × WindowFramebuffer :=
  if fb.dirty = false then (none, fb)
  else
    let img := fb.image
    let fb' := { fb with dirty := false, sequence := fb.sequence + 1 }
    let w := img.width
    let h := img.height
    let img :=
      if scale < 1 then img.resizeTo (qToNat (w * scale)) (qToNat (h * scale))
      else if max w h > max_dim then
        img.resizeTo (w * max_dim / max w h) (h * max_dim / max w h)
      else img
    let data :=
      if fmt = "jpeg" then jpegEncode img quality
      else if fmt = "png" then pngEncode img
      else if fmt = "raw" then img.tobytes
      else jpegEncode img quality
    (some data, fb')

/-! ## FramebufferManager (framebuffer.py)

The registry's `_buffers` dict maps window id to framebuffer.  A Python
dict preserves insertion order, assignment to an existing key keeps its
position, and `pop` removes the key; the dict is modelled as an ordered
association list with those operations. -/

/-- Ordered-dict assignment `d[k] = v`: replace in place, else append. -/
def dictInsert (k : Nat) (v : WindowFramebuffer) :
    List (Nat × WindowFramebuffer) → List (Nat × WindowFramebuffer)
  | [] => [(k, v)]
  | (k', v') :: rest =>
      if k' = k then (k, v) :: rest else (k', v') :: dictInsert k v rest

/-- Ordered-dict `d.pop(k, None)`: drop the entry for `k` if present. -/
def dictRemove (k : Nat) :
    List (Nat × WindowFramebuffer) → List (Nat × WindowFramebuffer)
  | [] => []
  | (k', v') :: rest =>
      if k' = k then rest else (k', v') :: dictRemove k rest

/-- Ordered-dict `d.get(k)`. -/
def dictGet (k : Nat) :
    List (Nat × WindowFramebuffer) → Option WindowFramebuffer
  | [] => none
  | (k', v') :: rest => if k' = k then some v' else dictGet k rest

/-- Source `FramebufferManager`: manages framebuffers for all tracked windows. -/
structure FramebufferManager where
  buffers : List (Nat × WindowFramebuffer)
deriving DecidableEq, Repr

/-- The empty manager (`__init__`). -/
def FramebufferManager.empty : FramebufferManager := ⟨[]⟩

/-- Source `create_window`: build a fresh framebuffer and store it under `wid`
(replacing any previous entry for `wid`, as dict assignment does). -/
def FramebufferManager.create_window (mgr : FramebufferManager)
    (wid width height : Nat) : FramebufferManager :=
  ⟨dictInsert wid (WindowFramebuffer.new wid width height) mgr.buffers⟩

/-- Source `destroy_window`: `self._buffers.pop(wid, None)`. -/
def FramebufferManager.destroy_window (mgr : FramebufferManager) (wid : Nat) :
    FramebufferManager :=
  ⟨dictRemove wid mgr.buffers⟩

/-- Source `get`: `self._buffers.get(wid)`. -/
def FramebufferManager.get (mgr : FramebufferManager) (wid : Nat) :
    Option WindowFramebuffer :=
  dictGet wid mgr.buffers

/-- Source `resize_window`: resize the framebuffer for `wid` in place if it
exists, otherwise do nothing. -/
def FramebufferManager.resize_window (mgr : FramebufferManager)
    (wid width height : Nat) : FramebufferManager :=
  match mgr.get wid with
  | some fb => ⟨dictInsert wid (fb.resize width height) mgr.buffers⟩
  | none => mgr

/-- Source `update_region` (manager level): apply the damage region to the
framebuffer for `wid` in place if it exists, otherwise do nothing. -/
def FramebufferManager.update_region (mgr : FramebufferManager)
    (wid x y w h : Nat) (coding : String) (data : List Nat) :
    FramebufferManager :=
  match mgr.get wid with
  | some fb => ⟨dictInsert wid (fb.update_region x y w h coding data) mgr.buffers⟩
  | none => mgr

/-- One iteration of the `get_dirty_snapshots` loop for one framebuffer:
skip it (entry `none`, state unchanged) when rate-limited, otherwise
call `snapshot`; on a non-absent result stamp `last_sent = now` and
produce the `(wid, data, sequence)` entry (the sequence read after the
snapshot incremented it). -/
def collectStep (now : ℚ) (fmt : String) (quality : Nat) (scale : ℚ)
    (max_dim : Nat) (min_interval : ℚ) (fb : WindowFramebuffer) :
    Option (Nat × List Nat × Nat) × WindowFramebuffer :=
  if min_interval > 0 ∧ now - fb.last_sent < min_interval then (none, fb)
  else
    match fb.snapshot fmt quality scale max_dim with
    | (some data, fb') =>
        (some (fb.wid, data, fb'.sequence), { fb' with last_sent := now })
    | (none, fb') => (none, fb')

/-- The `get_dirty_snapshots` loop over the listed buffers, in order. -/
def collectGo (now : ℚ) (fmt : String) (quality : Nat) (scale : ℚ)
    (max_dim : Nat) (min_interval : ℚ) :
    List (Nat × WindowFramebuffer) →
    List (Nat × List Nat × Nat) × List (Nat × WindowFramebuffer)
  | [] => ([], [])
  | e :: rest =>
      let o := collectStep now fmt quality scale max_dim min_interval e.2
      let r := collectGo now fmt quality scale max_dim min_interval rest
      (o.1.toList ++ r.1, (e.1, o.2) :: r.2)

/-- Source `get_dirty_snapshots`: snapshots for all dirty windows, respecting
rate limits; returns the `(wid, data, sequence)` entries and the updated
manager (the Python method mutates the framebuffers in place).  `now` is
the single `time.time()` read at the top of the method. -/
def FramebufferManager.get_dirty_snapshots (mgr : FramebufferManager)
    (now : ℚ) (fmt : String := "jpeg") (quality : Nat := 70) (scale : ℚ := 1)
    (max_dim : Nat := 1920) (min_interval : ℚ := 0) :
    List (Nat × List Nat × Nat) × FramebufferManager :=
  let (res, buffers') := collectGo now fmt quality scale max_dim min_interval mgr.buffers
  (res, ⟨buffers'⟩)

/-- Source `window_ids`. -/
def FramebufferManager.window_ids (mgr : FramebufferManager) : List Nat :=
  mgr.buffers.map Prod.fst

/-! ## Mode gate and control session (src/plugin.py, config.py) -/

/-- Source `InputMode` (protocol.py): the four input gating modes. -/
inductive InputMode where
  | observer
  | supervised
  | autonomous
  | collaborative
deriving DecidableEq, Repr

/-- The string value of each `InputMode` member. -/
def InputMode.value : InputMode → String
  | .observer => "observer"
  | .supervised => "supervised"
  | .autonomous => "autonomous"
  | .collaborative => "collaborative"

/-- Source `FrameCaptureConfig` (config.py) with its defaults. -/
structure FrameCaptureConfig where
  fps : ℚ := 3
  format : String := "jpeg"
  quality : Nat := 70
  scale : ℚ := 1
  max_dimension : Nat := 1920
  delta_only : Bool := true
deriving Repr

/-- Source `ControlConfig` (config.py) with its defaults. -/
structure ControlConfig where
  mode : String := "observer"
  kill_switch : String := "ctrl+Pause"
  autonomous_timeout : Nat := 300
  human_priority_ms : Int := 500
deriving Repr

/-- The configuration surface the plugin core consumes (the zmq, agent
and logging sections configure the transport and are outside the
embedded core). -/
structure Config where
  frame_capture : FrameCaptureConfig := {}
  control : ControlConfig := {}
deriving Repr

/-- A field of an Xpra packet, as accessed by `_is_kill_switch`:
a string (key name), a list of strings (modifiers), or an int. -/
inductive PacketField where
  | int (n : Int)
  | str (s : String)
  | strList (l : List String)
deriving DecidableEq, Repr

/-- The mutable plugin state touched by the embedded operations: the
current mode, the framebuffer registry, the focused window and the
timestamp of the last human input.  The window-metadata cache and the
transport sockets are not consulted by the claims' operations. -/
structure AIControlPlugin where
  config : Config
  mode : InputMode
  framebuffers : FramebufferManager
  focused_wid : Nat
  human_last_input : ℚ
deriving Repr

/-- Source `str.lower()` on one character.  The combo and key-name strings the
source compares are ASCII; Python's lower on ASCII maps A-Z to a-z. -/
def lowerChar (c : Char) : Char :=
  if 'A' ≤ c ∧ c ≤ 'Z' then Char.ofNat (c.toNat + 32) else c

/-- Source `str.lower()` as a character list. -/
def lowerStr (s : String) : List Char := s.toList.map lowerChar

/-- Source `str.split("+")`: split on every plus sign, keeping empty parts. -/
def splitPlus : List Char → List (List Char)
  | [] => [[]]
  | c :: rest =>
    match splitPlus rest with
    | [] => [[]]
    | g :: gs => if c = '+' then [] :: g :: gs else (c :: g) :: gs

/-- Source `_is_kill_switch`: an input event matches the kill switch combo iff
it is a key-action whose key name equals the combo's final part
(case-insensitively) and whose modifier set contains every modifier
part of the combo (`mod_parts.issubset(...)`).  `packet[2]` defaults to
`""` and `packet[4]` to `[]` when the packet is short; a non-string key
name or a non-list modifier field raises inside the `try` and yields
False. -/
def isKillSwitch (combo : String) (input_type : String)
    (packet : List PacketField) : Bool :=
  if input_type ≠ "key-action" then false
  else
    match packet.getD 2 (.str ""), packet.getD 4 (.strList []) with
    | .str keyname, .strList modifiers =>
        let parts := splitPlus (lowerStr combo)
        let key_part := parts.getLastD []
        let mod_parts := parts.dropLast
        lowerStr keyname == key_part &&
          mod_parts.all (fun m => (modifiers.map lowerStr).contains m)
    | _, _ => false

/-- The result of `filter_input`: the return value (True to allow the
event through to the host, False to suppress), the successor state, and
the events published during the call. -/
structure FilterResult where
  allow : Bool
  state : AIControlPlugin
  events : List EventMessage

/-- Source `_trigger_kill_switch`: unconditionally force the mode to observer
and publish one `kill_switch` event carrying old and new mode. -/
def triggerKillSwitch (st : AIControlPlugin) (now : ℚ) :
    AIControlPlugin × List EventMessage :=
  ({ st with mode := .observer },
   [{ event_type := "kill_switch", wid := 0, timestamp := now,
      data := [("old_mode", .str st.mode.value), ("new_mode", .str "observer")] }])

/-- Source `filter_input`: decide whether to pass a human input event through.
A kill-switch match triggers the kill switch and always passes through;
otherwise observer and supervised pass through, autonomous suppresses,
and collaborative records the human-input timestamp and passes
through. -/
def filterInput (st : AIControlPlugin) (now : ℚ) (input_type : String)
    (packet : List PacketField) : FilterResult :=
  if isKillSwitch st.config.control.kill_switch input_type packet then
    let (st', evs) := triggerKillSwitch st now
    { allow := true, state := st', events := evs }
  else
    match st.mode with
    | .observer => { allow := true, state := st, events := [] }
    | .autonomous => { allow := false, state := st, events := [] }
    | .supervised => { allow := true, state := st, events := [] }
    | .collaborative =>
        { allow := true, state := { st with human_last_input := now }, events := [] }

/-- Source `ai_can_act`: whether the AI is currently permitted to inject input.
`elapsed` is `(time.time() - self._human_last_input) * 1000`
milliseconds, compared strictly against `human_priority_ms`. -/
def aiCanAct (st : AIControlPlugin) (now : ℚ) : Bool :=
  if st.mode = .autonomous ∨ st.mode = .supervised then true
  else if st.mode = .collaborative then
    (now - st.human_last_input) * 1000 > (st.config.control.human_priority_ms : ℚ)
  else false

/-- The screenshot branch of `_handle_query`.  When the window has a
framebuffer, `fb.snapshot(...)` is called with the configured capture
parameters; when that returns None (clean buffer), the source evaluates
`fb.snapshot.__wrapped__(fb) if hasattr(fb.snapshot, '__wrapped__') else b""`
— a bound method has no `__wrapped__` attribute, so this always takes
the `b""` arm, and the response succeeds with empty data.  An unknown
window id yields a failure response. -/
def handleScreenshotQuery (st : AIControlPlugin) (request_id : String)
    (wid_payload : Option Nat) : ControlResponse × AIControlPlugin :=
  let wid := wid_payload.getD st.focused_wid
  match st.framebuffers.get wid with
  | some fb =>
      let cfg := st.config.frame_capture
      let (d, fb') := fb.snapshot cfg.format cfg.quality cfg.scale cfg.max_dimension
      let data := d.getD []
      ({ success := true, request_id := request_id, data := .bin data, error := "" },
       { st with framebuffers := ⟨dictInsert wid fb' st.framebuffers.buffers⟩ })
  | none =>
      ({ success := false, request_id := request_id, data := .nil,
         error := "No framebuffer for wid " ++ toString wid }, st)

/-! ## Operation traces (for the sequence-counter invariant) -/

/-- A single-compositor operation, as reachable through the registry:
damage application, resize, or a snapshot request. -/
inductive FbOp where
  | applyRegion (x y w h : Nat) (coding : String) (data : List Nat)
  | resizeTo (w h : Nat)
  | snap (fmt : String) (quality : Nat) (scale : ℚ) (max_dim : Nat)

/-- Apply one operation to a compositor; a snapshot additionally
reports the sequence value observed on an emitted (non-absent)
snapshot. -/
def fbStep (fb : WindowFramebuffer) : FbOp → WindowFramebuffer × Option Nat
  | .applyRegion x y w h coding data => (fb.update_region x y w h coding data, none)
  | .resizeTo w h => (fb.resize w h, none)
  | .snap fmt quality scale max_dim =>
      match fb.snapshot fmt quality scale max_dim with
      | (some _, fb') => (fb', some fb'.sequence)
      | (none, fb') => (fb', none)

/-- Run a trace of operations, collecting the observed sequence values
of all emitted snapshots in order. -/
def fbRun (fb : WindowFramebuffer) : List FbOp → WindowFramebuffer × List Nat
  | [] => (fb, [])
  | op :: rest =>
      let r := fbStep fb op
      let rr := fbRun r.1 rest
      (rr.1, r.2.toList ++ rr.2)

/-! ## Helper lemmas -/

/-- Removing an absent key from the ordered dict is the identity. -/
theorem dictRemove_of_get_none (k : Nat) (l : List (Nat × WindowFramebuffer))
    (h : dictGet k l = none) : dictRemove k l = l := by
  induction l with
  | nil => rfl
  | cons e rest ih =>
      obtain ⟨k', v'⟩ := e
      by_cases hk : k' = k
      · simp [dictGet, hk] at h
      · simp only [dictGet, hk, if_false] at h
        simp [dictRemove, hk, ih h]

/-- A clean framebuffer snapshots to absent with no state change. -/
theorem snapshot_of_clean (fb : WindowFramebuffer) (fmt : String) (quality : Nat)
    (scale : ℚ) (max_dim : Nat) (h : fb.dirty = false) :
    fb.snapshot fmt quality scale max_dim = (none, fb) := by
  simp [WindowFramebuffer.snapshot, h]

/-! ## Claims -/

/-- C8: for each of the four wire message shapes and every valid message
value of that shape, decoding the encoding yields a message equal to the
original in every field. -/
theorem wire_roundtrip (f : FrameMessage) (e : EventMessage)
    (q : ControlRequest) (r : ControlResponse) :
    FrameMessage.deserialise f.serialise = some f ∧
    EventMessage.deserialise e.serialise = some e ∧
    ControlRequest.deserialise q.serialise = some q ∧
    ControlResponse.deserialise r.serialise = some r :=
  ⟨rfl, rfl, rfl, rfl⟩

/-- C10: an apply_region whose encoding is unsupported or whose payload
fails to decode leaves the compositor's pixel buffer, dirty flag and
sequence counter unchanged; in particular it alone never causes a
subsequent snapshot to return present data. -/
theorem failed_region_is_noop (fb : WindowFramebuffer) (x y w h : Nat)
    (coding : String) (data : List Nat) (fmt : String) (quality : Nat)
    (scale : ℚ) (max_dim : Nat)
    (hfail : decodeRegion coding w h data = none) :
    fb.update_region x y w h coding data = fb ∧
    (fb.update_region x y w h coding data).image = fb.image ∧
    (fb.update_region x y w h coding data).dirty = fb.dirty ∧
    (fb.update_region x y w h coding data).sequence = fb.sequence ∧
    (fb.dirty = false →
      ((fb.update_region x y w h coding data).snapshot fmt quality scale max_dim).1
        = none) := by
  have h1 : fb.update_region x y w h coding data = fb := by
    simp [WindowFramebuffer.update_region, hfail]
  refine ⟨h1, by rw [h1], by rw [h1], by rw [h1], ?_⟩
  intro hd
  rw [h1, snapshot_of_clean fb fmt quality scale max_dim hd]

/-- Witness for C10 at a concrete input: an unsupported coding on a
fresh 2×2 framebuffer. -/
theorem failed_region_is_noop_witness :
    (WindowFramebuffer.new 1 2 2).update_region 0 0 1 1 "bogus" [] =
      WindowFramebuffer.new 1 2 2 ∧
    (((WindowFramebuffer.new 1 2 2).update_region 0 0 1 1 "bogus" []).snapshot
        "jpeg" 70 1 1920).1 = none :=
  ⟨(failed_region_is_noop (WindowFramebuffer.new 1 2 2) 0 0 1 1 "bogus" []
      "jpeg" 70 1 1920 (by decide)).1,
   (failed_region_is_noop (WindowFramebuffer.new 1 2 2) 0 0 1 1 "bogus" []
      "jpeg" 70 1 1920 (by decide)).2.2.2.2 rfl⟩

/-- C9: a snapshot with a format string other than jpeg, png or raw does
not fail and is not absent for a dirty buffer; it produces exactly the
same result (data and successor state) as the jpeg format at the same
quality, still clearing the dirty flag and incrementing the sequence
counter. -/
theorem unknown_format_falls_back_to_jpeg (fb : WindowFramebuffer)
    (fmt : String) (quality : Nat) (scale : ℚ) (max_dim : Nat)
    (hj : fmt ≠ "jpeg") (hp : fmt ≠ "png") (hr : fmt ≠ "raw")
    (hd : fb.dirty = true) :
    fb.snapshot fmt quality scale max_dim = fb.snapshot "jpeg" quality scale max_dim ∧
    (fb.snapshot fmt quality scale max_dim).1.isSome = true ∧
    (fb.snapshot fmt quality scale max_dim).2.dirty = false ∧
    (fb.snapshot fmt quality scale max_dim).2.sequence = fb.sequence + 1 := by
  refine ⟨?_, ?_, ?_, ?_⟩ <;> simp [WindowFramebuffer.snapshot, hd, hj, hp, hr]

/-- Witness for C9: format "webp" on a dirty framebuffer. -/
theorem unknown_format_falls_back_to_jpeg_witness :
    ((WindowFramebuffer.new 1 2 2).update_region 0 0 1 1 "rgb24" [1, 2, 3]).snapshot
        "webp" 70 1 1920
      = ((WindowFramebuffer.new 1 2 2).update_region 0 0 1 1 "rgb24" [1, 2, 3]).snapshot
        "jpeg" 70 1 1920 :=
  (unknown_format_falls_back_to_jpeg _ "webp" 70 1 1920
    (by decide) (by decide) (by decide) (by decide)).1

/-- C3: a freshly created compositor snapshots to absent; after an
apply_region whose region decodes, the next snapshot returns present
data, and the state it leaves is clean, so every further snapshot
(with no region applied in between) returns absent and changes
nothing. -/
theorem dirty_then_clear (wid w0 h0 : Nat) (fb : WindowFramebuffer)
    (x y w h : Nat) (coding : String) (data : List Nat) (fmt : String)
    (quality : Nat) (scale : ℚ) (max_dim : Nat)
    (hdec : (decodeRegion coding w h data).isSome = true) :
    (WindowFramebuffer.new wid w0 h0).snapshot fmt quality scale max_dim
        = (none, WindowFramebuffer.new wid w0 h0) ∧
    ((fb.update_region x y w h coding data).snapshot fmt quality scale max_dim).1.isSome
        = true ∧
    ((fb.update_region x y w h coding data).snapshot fmt quality scale max_dim).2.dirty
        = false ∧
    (((fb.update_region x y w h coding data).snapshot fmt quality scale max_dim).2.snapshot
        fmt quality scale max_dim
      = (none,
         ((fb.update_region x y w h coding data).snapshot fmt quality scale max_dim).2)) := by
  obtain ⟨region, hr⟩ := Option.isSome_iff_exists.mp hdec
  have hu : fb.update_region x y w h coding data
      = { fb with image := fb.image.paste region x y, dirty := true } := by
    simp [WindowFramebuffer.update_region, hr]
  refine ⟨by simp [WindowFramebuffer.snapshot, WindowFramebuffer.new], ?_, ?_, ?_⟩
  · rw [hu]; simp [WindowFramebuffer.snapshot]
  · rw [hu]; simp [WindowFramebuffer.snapshot]
  · rw [hu]
    apply snapshot_of_clean
    simp [WindowFramebuffer.snapshot]

/-- Witness for C3: a 1×1 rgb24 region applied to a fresh 2×2
framebuffer. -/
theorem dirty_then_clear_witness :
    ((WindowFramebuffer.new 1 2 2).update_region 0 0 1 1 "rgb24" [5, 6, 7]).snapshot
        "jpeg" 70 1 1920 |>.1.isSome = true :=
  (dirty_then_clear 1 2 2 (WindowFramebuffer.new 1 2 2) 0 0 1 1 "rgb24" [5, 6, 7]
    "jpeg" 70 1 1920 (by decide)).2.1

/-- C7: apply_region, resize and destroy on a window id that is not in
the registry are no-ops: state and registry size are unchanged. -/
theorem unknown_window_is_safe (mgr : FramebufferManager)
    (wid x y w h rw rh : Nat) (coding : String) (data : List Nat)
    (hget : mgr.get wid = none) :
    mgr.update_region wid x y rw rh coding data = mgr ∧
    mgr.resize_window wid w h = mgr ∧
    mgr.destroy_window wid = mgr ∧
    (mgr.destroy_window wid).buffers.length = mgr.buffers.length := by
  have hdr : dictRemove wid mgr.buffers = mgr.buffers :=
    dictRemove_of_get_none wid mgr.buffers hget
  refine ⟨?_, ?_, ?_, ?_⟩
  · simp [FramebufferManager.update_region, hget]
  · simp [FramebufferManager.resize_window, hget]
  · simp [FramebufferManager.destroy_window, hdr]
  · simp [FramebufferManager.destroy_window, hdr]

/-- Witness for C7: window 9 was never created. -/
theorem unknown_window_is_safe_witness :
    (FramebufferManager.empty.create_window 1 4 4).destroy_window 9
      = FramebufferManager.empty.create_window 1 4 4 :=
  (unknown_window_is_safe (FramebufferManager.empty.create_window 1 4 4)
    9 0 0 1 1 2 2 "rgb24" [] (by decide)).2.2.1

/-- Concrete plugin state for witnesses: default config, autonomous
mode, one registered 4×4 window. -/
def pluginExample : AIControlPlugin :=
  { config := {}, mode := .autonomous,
    framebuffers := FramebufferManager.empty.create_window 1 4 4,
    focused_wid := 1, human_last_input := 0 }

/-- A key-action packet for the default combo ctrl+Pause:
[type, wid, keyname, pressed, modifiers]. -/
def killPacket : List PacketField :=
  [.str "key-action", .int 1, .str "Pause", .int 1, .strList ["ctrl"]]

/-- C1: in every mode, an input event matching the configured
kill-switch combination passes through (is not suppressed), forces the
mode to observer, and publishes exactly one kill-switch event; from
observer mode the transition leaves the mode unchanged (idempotent). -/
theorem kill_switch_dominance (st : AIControlPlugin) (now : ℚ)
    (input_type : String) (packet : List PacketField)
    (hks : isKillSwitch st.config.control.kill_switch input_type packet = true) :
    (filterInput st now input_type packet).allow = true ∧
    (filterInput st now input_type packet).state.mode = .observer ∧
    (filterInput st now input_type packet).events
      = [{ event_type := "kill_switch", wid := 0, timestamp := now,
           data := [("old_mode", .str st.mode.value),
                    ("new_mode", .str "observer")] }] ∧
    (st.mode = .observer →
      (filterInput st now input_type packet).state.mode = st.mode) := by
  refine ⟨?_, ?_, ?_, ?_⟩ <;>
    simp [filterInput, hks, triggerKillSwitch]
  intro h
  rw [h]

/-- Witness for C1: the default combo fed to the example plugin state in
autonomous mode. -/
theorem kill_switch_dominance_witness :
    (filterInput pluginExample 3 "key-action" killPacket).allow = true ∧
    (filterInput pluginExample 3 "key-action" killPacket).state.mode = .observer ∧
    (filterInput pluginExample 3 "key-action" killPacket).events.length = 1 := by
  have h := kill_switch_dominance pluginExample 3 "key-action" killPacket (by decide)
  exact ⟨h.1, h.2.1, by rw [h.2.2.1]; rfl⟩

/-- C6: agent_may_act is true exactly in autonomous mode, supervised
mode, or collaborative mode once strictly more than the configured
human-priority window has elapsed since the latest recorded human
input; and in collaborative mode a (non-kill-switch) human input event
records its timestamp as the latest human input. -/
theorem agent_may_act_modes (st : AIControlPlugin) (now t : ℚ) :
    (aiCanAct st now = true ↔
      (st.mode = .autonomous ∨ st.mode = .supervised ∨
        (st.mode = .collaborative ∧
          (now - st.human_last_input) * 1000
            > (st.config.control.human_priority_ms : ℚ)))) ∧
    (filterInput { st with mode := .collaborative } t "pointer-button"
        []).state.human_last_input = t := by
  constructor
  · cases hm : st.mode <;> simp [aiCanAct, hm]
  · simp [filterInput, isKillSwitch]

/-- A dirty framebuffer snapshots to present data, clearing the dirty
flag and incrementing the sequence counter. -/
theorem snapshot_of_dirty (fb : WindowFramebuffer) (fmt : String)
    (quality : Nat) (scale : ℚ) (max_dim : Nat) (hd : fb.dirty = true) :
    ∃ d, fb.snapshot fmt quality scale max_dim
      = (some d, { fb with dirty := false, sequence := fb.sequence + 1 }) := by
  unfold WindowFramebuffer.snapshot
  rw [hd]
  exact ⟨_, rfl⟩

/-- Each step either emits the incremented sequence value or leaves the
counter untouched. -/
theorem fbStep_seq (fb : WindowFramebuffer) (op : FbOp) :
    ((fbStep fb op).2 = some (fb.sequence + 1) ∧
      (fbStep fb op).1.sequence = fb.sequence + 1) ∨
    ((fbStep fb op).2 = none ∧ (fbStep fb op).1.sequence = fb.sequence) := by
  cases op with
  | applyRegion x y w h c d =>
      right
      cases h : decodeRegion c w h d <;>
        simp [fbStep, WindowFramebuffer.update_region, h]
  | resizeTo w h => right; exact ⟨rfl, rfl⟩
  | snap fmt q sc md =>
      by_cases hd : fb.dirty = true
      · left
        obtain ⟨d, hsnap⟩ := snapshot_of_dirty fb fmt q sc md hd
        simp [fbStep, hsnap]
      · right
        have hd' : fb.dirty = false := by simpa using hd
        simp [fbStep, snapshot_of_clean fb fmt q sc md hd']

/-- Along any trace of operations on one compositor, the sequence
counter never decreases and the observed snapshot sequence values are
strictly increasing and strictly above the starting counter. -/
theorem fbRun_seq_spec (ops : List FbOp) : ∀ fb : WindowFramebuffer,
    fb.sequence ≤ (fbRun fb ops).1.sequence ∧
    (∀ s ∈ (fbRun fb ops).2, fb.sequence < s ∧ s ≤ (fbRun fb ops).1.sequence) ∧
    List.Chain' (· < ·) (fbRun fb ops).2 := by
  induction ops with
  | nil =>
      intro fb
      refine ⟨le_refl _, ?_, ?_⟩ <;> simp [fbRun]
  | cons op rest ih =>
      intro fb
      have hrun1 : (fbRun fb (op :: rest)).1 = (fbRun (fbStep fb op).1 rest).1 := rfl
      have hrun2 : (fbRun fb (op :: rest)).2
          = (fbStep fb op).2.toList ++ (fbRun (fbStep fb op).1 rest).2 := rfl
      obtain ⟨hle, hall, hchain⟩ := ih (fbStep fb op).1
      rcases fbStep_seq fb op with ⟨ho, hs⟩ | ⟨ho, hs⟩
      · -- emitted: observed value fb.sequence + 1
        rw [hs] at hle hall
        refine ⟨?_, ?_, ?_⟩
        · rw [hrun1]; omega
        · intro s hsmem
          rw [hrun2, ho] at hsmem
          simp only [Option.toList_some, List.cons_append, List.nil_append,
            List.mem_cons] at hsmem
          rw [hrun1]
          rcases hsmem with rfl | hsmem
          · exact ⟨Nat.lt_succ_self _, hle⟩
          · obtain ⟨h1, h2⟩ := hall s hsmem
            exact ⟨by omega, h2⟩
        · rw [hrun2, ho]
          simp only [Option.toList_some, List.cons_append, List.nil_append]
          rw [List.chain'_cons']
          refine ⟨?_, hchain⟩
          intro b hb
          have hbmem := List.mem_of_mem_head? hb
          exact (hall b hbmem).1
      · -- not emitted: counter unchanged
        rw [hs] at hle hall
        refine ⟨?_, ?_, ?_⟩
        · rw [hrun1]; exact hle
        · intro s hsmem
          rw [hrun2, ho] at hsmem
          simp only [Option.toList_none, List.nil_append] at hsmem
          rw [hrun1]
          exact hall s hsmem
        · rw [hrun2, ho]
          simpa using hchain

/-- C4 (amended): over the lifetime of a single compositor instance,
the sequence counter never decreases, the observed snapshot sequence
values never repeat (they are strictly increasing), each emitted
snapshot increments the counter by exactly one, and apply_region and
resize leave it untouched. -/
theorem sequence_counter_monotone (fb : WindowFramebuffer) (ops : List FbOp) :
    fb.sequence ≤ (fbRun fb ops).1.sequence ∧
    (∀ s ∈ (fbRun fb ops).2, fb.sequence < s ∧ s ≤ (fbRun fb ops).1.sequence) ∧
    List.Chain' (· < ·) (fbRun fb ops).2 ∧
    (∀ (g : WindowFramebuffer) (fmt : String) (q : Nat) (sc : ℚ) (md : Nat),
      (g.dirty = true →
        (fbStep g (.snap fmt q sc md)).2 = some (g.sequence + 1) ∧
        (fbStep g (.snap fmt q sc md)).1.sequence = g.sequence + 1) ∧
      (g.dirty = false →
        (fbStep g (.snap fmt q sc md)).2 = none ∧
        (fbStep g (.snap fmt q sc md)).1.sequence = g.sequence)) ∧
    (∀ (g : WindowFramebuffer) (x y w h : Nat) (c : String) (d : List Nat),
      (fbStep g (.applyRegion x y w h c d)).1.sequence = g.sequence) ∧
    (∀ (g : WindowFramebuffer) (w h : Nat),
      (fbStep g (.resizeTo w h)).1.sequence = g.sequence) := by
  obtain ⟨h1, h2, h3⟩ := fbRun_seq_spec ops fb
  refine ⟨h1, h2, h3, ?_, ?_, ?_⟩
  · intro g fmt q sc md
    constructor
    · intro hd
      obtain ⟨d, hsnap⟩ := snapshot_of_dirty g fmt q sc md hd
      simp [fbStep, hsnap]
    · intro hd
      simp [fbStep, snapshot_of_clean g fmt q sc md hd]
  · intro g x y w h c d
    cases h : decodeRegion c w h d <;>
      simp [fbStep, WindowFramebuffer.update_region, h]
  · intro g w h
    rfl

/-- Witness for C4 (amended): a fresh framebuffer receives one region
and one snapshot; the single observed sequence value is 1. -/
theorem sequence_counter_monotone_witness :
    (WindowFramebuffer.new 3 2 2).sequence < 1 ∧
    1 ≤ (fbRun ((WindowFramebuffer.new 3 2 2).update_region 0 0 1 1 "rgb24" [1, 2, 3])
          [.snap "jpeg" 70 1 1920]).1.sequence :=
  (sequence_counter_monotone
      ((WindowFramebuffer.new 3 2 2).update_region 0 0 1 1 "rgb24" [1, 2, 3])
      [.snap "jpeg" 70 1 1920]).2.1 1 (by decide)

/-- Registry trace for the C4 counterexample: create window 1, damage
it, collect a snapshot, destroy it, then re-create the same id, damage
and collect again. -/
def reuseTrace1 : List (Nat × List Nat × Nat) × FramebufferManager :=
  (((FramebufferManager.empty.create_window 1 2 2).update_region
      1 0 0 1 1 "rgb24" [9, 9, 9]).get_dirty_snapshots 1 "jpeg" 70 1 1920 0)

/-- Continuation of the trace after destroy and re-create of id 1. -/
def reuseTrace2 : List (Nat × List Nat × Nat) × FramebufferManager :=
  ((((reuseTrace1.2.destroy_window 1).create_window 1 2 2).update_region
      1 0 0 1 1 "rgb24" [9, 9, 9]).get_dirty_snapshots 2 "jpeg" 70 1 1920 0)

/-- The sequence values observed for window id 1 across the whole
trace. -/
def reuseObserved : List Nat :=
  (reuseTrace1.1 ++ reuseTrace2.1).map (fun e => e.2.2)

/-- C4 counterexample: across a registry trace that destroys and
re-creates window id 1, the observed sequence values for id 1 are
[1, 1] — the counter repeats (and the stored counter dropped back to
zero in between), so the claim as stated over arbitrary create/destroy
sequences is false. -/
theorem sequence_counter_repeats_after_reuse :
    reuseObserved = [1, 1] ∧ ¬ List.Chain' (· < ·) reuseObserved ∧
    ¬ reuseObserved.Pairwise (· ≠ ·) := by
  have h : reuseObserved = [1, 1] := by decide
  refine ⟨h, ?_, ?_⟩
  · rw [h]; simp [List.chain'_cons]
  · rw [h]; simp [List.pairwise_cons]

/-- The entries collected by the snapshot loop are exactly the
per-compositor step outputs, in registry order. -/
theorem collectGo_entries (now : ℚ) (fmt : String) (quality : Nat)
    (scale : ℚ) (max_dim : Nat) (min_interval : ℚ) :
    ∀ l : List (Nat × WindowFramebuffer),
      (collectGo now fmt quality scale max_dim min_interval l).1
        = l.filterMap
            (fun e => (collectStep now fmt quality scale max_dim min_interval e.2).1) := by
  intro l
  induction l with
  | nil => rfl
  | cons e rest ih =>
      cases ho : (collectStep now fmt quality scale max_dim min_interval e.2).1 <;>
        simp [collectGo, ho, ih, List.filterMap_cons]

/-- Two 4×4 windows, of which only window 1 received a damage region. -/
def twoWindowMgr : FramebufferManager :=
  ((FramebufferManager.empty.create_window 1 4 4).create_window 2 4 4).update_region
    1 0 0 2 2 "rgb24" (List.replicate 12 7)

/-- First collection over the two-window registry. -/
def twoWindowCollect1 : List (Nat × List Nat × Nat) × FramebufferManager :=
  twoWindowMgr.get_dirty_snapshots 5 "jpeg" 70 1 1920 0

/-- Second collection, with no further updates in between. -/
def twoWindowCollect2 : List (Nat × List Nat × Nat) × FramebufferManager :=
  twoWindowCollect1.2.get_dirty_snapshots 6 "jpeg" 70 1 1920 0

/-- C5: the collection skips every compositor whose last_sent is
younger than min_interval (leaving it untouched), and for each
remaining compositor appends an entry (carrying its wid and the
incremented sequence) and stamps last_sent exactly when its snapshot is
non-absent; the collected entries are exactly those step outputs in
registry order.  Concretely, with two windows of which only window 1
was updated, one collection returns exactly the entry for window 1 and
an immediate second collection returns no entries. -/
theorem collect_dirty_snapshots_spec (mgr : FramebufferManager) (now : ℚ)
    (fmt : String) (quality : Nat) (scale : ℚ) (max_dim : Nat)
    (min_interval : ℚ) :
    ((mgr.get_dirty_snapshots now fmt quality scale max_dim min_interval).1
      = mgr.buffers.filterMap
          (fun e => (collectStep now fmt quality scale max_dim min_interval e.2).1)) ∧
    (∀ fb : WindowFramebuffer, min_interval > 0 → now - fb.last_sent < min_interval →
      collectStep now fmt quality scale max_dim min_interval fb = (none, fb)) ∧
    (∀ fb : WindowFramebuffer,
      ¬ (min_interval > 0 ∧ now - fb.last_sent < min_interval) →
      (fb.dirty = true →
        ∃ d, collectStep now fmt quality scale max_dim min_interval fb
          = (some (fb.wid, d, fb.sequence + 1),
             { fb with dirty := false, sequence := fb.sequence + 1,
                       last_sent := now })) ∧
      (fb.dirty = false →
        collectStep now fmt quality scale max_dim min_interval fb = (none, fb))) ∧
    (twoWindowCollect1.1.map (fun e => e.1) = [1] ∧ twoWindowCollect2.1 = []) := by
  refine ⟨?_, ?_, ?_, by decide, by decide⟩
  · exact collectGo_entries now fmt quality scale max_dim min_interval mgr.buffers
  · intro fb hmi hyoung
    simp [collectStep, hmi, hyoung]
  · intro fb hskip
    constructor
    · intro hd
      obtain ⟨d, hsnap⟩ := snapshot_of_dirty fb fmt quality scale max_dim hd
      refine ⟨d, ?_⟩
      simp [collectStep, hskip, hsnap]
    · intro hd
      simp [collectStep, hskip, snapshot_of_clean fb fmt quality scale max_dim hd]

/-- Witness for C5: a rate-limited compositor (last_sent 0, now 1,
min_interval 3) is skipped unchanged. -/
theorem collect_dirty_snapshots_spec_witness :
    collectStep 1 "jpeg" 70 1 1920 3 (WindowFramebuffer.new 7 2 2)
      = (none, WindowFramebuffer.new 7 2 2) :=
  (collect_dirty_snapshots_spec FramebufferManager.empty 1 "jpeg" 70 1 1920 3).2.1
    (WindowFramebuffer.new 7 2 2) (by norm_num) (by norm_num [WindowFramebuffer.new])

/-- Plugin state for the screenshot query: default config, observer
mode, window 1 registered with a 4×4 framebuffer that has received no
damage, so its dirty flag is false. -/
def cleanWindowPlugin : AIControlPlugin :=
  { config := {}, mode := .observer,
    framebuffers := FramebufferManager.empty.create_window 1 4 4,
    focused_wid := 0, human_last_input := 0 }

/-- C2 (code bug): the screenshot query for a registered window whose
dirty flag is false returns a successful response whose data is the
EMPTY byte string, not a forced snapshot of the buffer.  The source's
own comment says "Force snapshot even if not dirty", but the forced
path `fb.snapshot.__wrapped__` never exists on a plain bound method, so
the fallback `b""` is always taken; the spec explicitly chose "always
bypass dirty for on-demand requests". -/
theorem screenshot_clean_window_returns_empty :
    ((cleanWindowPlugin.framebuffers.get 1).map WindowFramebuffer.dirty
        = some false) ∧
    (handleScreenshotQuery cleanWindowPlugin "req-1" (some 1)).1.success = true ∧
    (handleScreenshotQuery cleanWindowPlugin "req-1" (some 1)).1.data
        = .bin [] := by
  refine ⟨rfl, rfl, rfl⟩
